import Mathlib

/-!
Shallow embedding of `replay_identification` (decoders.py, lfp_likelihood.py,
multiunit_likelihood.py).

Modelling conventions:
* a float that may be NaN is an `Option ℝ`; `none` is NaN (numpy's `isnan`
  tests become `Option.isSome`, and NaN-propagating arithmetic is explicit);
* numpy arrays are index functions (`ℕ → _`), with explicit lengths
  (`n_time`, `n_marks`, ...) where the source uses a shape;
* fitted density models (`score_samples`) are abstract real-valued functions,
  passed as parameters, since their training is out of scope;
* `np.log` applied to raw data is modelled on `EReal` so that `log 0 = -∞`
  is observable (`nplog`), as in IEEE arithmetic.
-/

/-- NaN-propagating addition: the running `log_likelihood += ...` sums. -/
def nan_add (a b : Option ℝ) : Option ℝ :=
  match a, b with
  | some x, some y => some (x + y)
  | _, _ => none

/-- Model of `np.log` on raw (nonnegative) data: `log 0 = -∞`, finite above 0. -/
noncomputable def nplog (x : ℝ) : EReal :=
  if x ≤ 0 then ⊥ else ((Real.log x : ℝ) : EReal)

/-- `np.spacing(1)`, the additive epsilon guard used by `fit_lfp_likelihood`. -/
noncomputable def npSpacing1 : ℝ := (2 : ℝ) ^ (-(52 : ℤ))

/-! ## lfp_likelihood.py -/

/-- `not_nan = np.all(~np.isnan(ripple_band_power), axis=1)` in `lfp_likelihood`. -/
def lfp_not_nan (n_signals : ℕ) (ripple_band_power : ℕ → ℕ → Option ℝ) (t : ℕ) : Bool :=
  (List.range n_signals).all (fun c => (ripple_band_power t c).isSome)

/-- The expression `np.log(ripple_band_power[not_nan])` inside `lfp_likelihood`:
the logarithm of the raw power, with no epsilon guard. -/
noncomputable def lfp_log_power (ripple_band_power : ℕ → ℕ → Option ℝ) (t c : ℕ) : EReal :=
  nplog ((ripple_band_power t c).getD 0)

/-- The expression `np.log(ripple_band_power[...] + np.spacing(1))` in
`fit_lfp_likelihood`: the logarithm of the power plus the epsilon guard. -/
noncomputable def fit_lfp_log_power (x : ℝ) : EReal :=
  nplog (x + npSpacing1)

/-- `lfp_likelihood(ripple_band_power, replay_model, no_replay_model)`:
starts from `np.ones((n_time, 2))` and overwrites the rows with no NaN channel
with `exp(score_samples(log power))` of the corresponding state's model.
The fitted models consume the (possibly `-∞`) log-power row. -/
noncomputable def lfp_likelihood (n_signals : ℕ) (ripple_band_power : ℕ → ℕ → Option ℝ)
    (replay_model no_replay_model : (ℕ → EReal) → ℝ) (t s : ℕ) : ℝ :=
  if lfp_not_nan n_signals ripple_band_power t then
    if s = 0 then Real.exp (no_replay_model (fun c => lfp_log_power ripple_band_power t c))
    else if s = 1 then Real.exp (replay_model (fun c => lfp_log_power ripple_band_power t c))
    else 1
  else 1

/-! ## multiunit_likelihood.py -/

/-- `not_nan_marks = np.any(~np.isnan(multiunit), axis=0)`: the mark (feature)
columns that are observed at some time, kept in order. -/
def not_nan_marks (n_time n_marks : ℕ) (multiunit : ℕ → ℕ → Option ℝ) : List ℕ :=
  (List.range n_marks).filter
    (fun j => (List.range n_time).any (fun t => (multiunit t j).isSome))

/-- `is_spike = np.any(~np.isnan(multiunit), axis=1) & np.all(~np.isnan(position), axis=1)`. -/
def is_spike (n_marks : ℕ) (multiunit : ℕ → ℕ → Option ℝ)
    (position : ℕ → Option ℝ) (t : ℕ) : Bool :=
  ((List.range n_marks).any (fun j => (multiunit t j).isSome)) && (position t).isSome

/-- One row of `np.concatenate((multiunit[is_spike][:, not_nan_marks],
position[is_spike]), axis=1)`: the point fed to the joint model's
`score_samples` at time `t`. -/
def joint_point (n_time n_marks : ℕ) (multiunit : ℕ → ℕ → Option ℝ)
    (t : ℕ) (p : ℝ) : List (Option ℝ) :=
  ((not_nan_marks n_time n_marks multiunit).map (fun j => multiunit t j)) ++ [some p]

/-- `estimate_occupancy(position, occupancy_model)`: NaN positions give NaN
occupancy; elsewhere `exp(occupancy_model.score_samples(position))`. -/
noncomputable def estimate_occupancy (occupancy_model : ℝ → ℝ)
    (position : ℕ → Option ℝ) (t : ℕ) : Option ℝ :=
  (position t).map (fun p => Real.exp (occupancy_model p))

/-- `estimate_ground_process_intensity(position, occupancy, marginal_model, mean_rate)`:
`np.exp(np.log(mean_rate) + place_field - np.log(occupancy))`, with NaN
propagating from a NaN position or NaN occupancy. -/
noncomputable def estimate_ground_process_intensity (marginal_model : ℝ → ℝ)
    (mean_rate : ℝ) (position : ℕ → Option ℝ) (occupancy : ℕ → Option ℝ)
    (t : ℕ) : Option ℝ :=
  match position t, occupancy t with
  | some p, some o => some (Real.exp (Real.log mean_rate + marginal_model p - Real.log o))
  | _, _ => none

/-- `estimate_log_joint_mark_intensity(multiunit, position, joint_model, mean_rate,
occupancy)`: zeros everywhere, overwritten at `is_spike` times with
`log(mean_rate) + joint_model.score_samples(point) - log(occupancy)`. -/
noncomputable def estimate_log_joint_mark_intensity (n_time n_marks : ℕ)
    (multiunit : ℕ → ℕ → Option ℝ) (position : ℕ → Option ℝ)
    (joint_model : List (Option ℝ) → ℝ) (mean_rate : ℝ)
    (occupancy : ℕ → Option ℝ) (t : ℕ) : ℝ :=
  if is_spike n_marks multiunit position t then
    Real.log mean_rate +
      joint_model (joint_point n_time n_marks multiunit t ((position t).getD 0)) -
      Real.log ((occupancy t).getD 0)
  else 0

/-- `poisson_mark_log_likelihood(log_joint_mark_intensity, ground_process_intensity,
time_bin_size)`: `np.log(time_bin_size) + log_joint_mark_intensity -
ground_process_intensity * time_bin_size`, elementwise, propagating NaN. -/
noncomputable def poisson_mark_log_likelihood (log_joint_mark_intensity : ℝ)
    (ground_process_intensity : Option ℝ) (time_bin_size : ℝ) : Option ℝ :=
  ground_process_intensity.map
    (fun g => Real.log time_bin_size + log_joint_mark_intensity - g * time_bin_size)

/-- One electrode's entry in the zipped loop of the two estimators: its
multiunit array and the fitted models and mean rate belonging to it. -/
structure Electrode where
  multiunit : ℕ → ℕ → Option ℝ
  joint_model : List (Option ℝ) → ℝ
  marginal_model : ℝ → ℝ
  mean_rate : ℝ

/-- `estimate_replay_log_likelihood(multiunits, place_bin_centers, occupancy_model,
joint_models, marginal_models, mean_rates, time_bin_size)` at `(t, b)`:
occupancy is estimated on the place-bin centers, the ground process intensity
on the bin centers, the log joint mark intensity with the constant position
`place_bin * np.ones((n_time, 1))` and constant occupancy `occ * np.ones(n_time)`,
and the per-electrode Poisson terms are accumulated into `log_likelihood`. -/
noncomputable def estimate_replay_log_likelihood (n_time n_marks : ℕ)
    (place_bin_centers : ℕ → ℝ) (occupancy_model : ℝ → ℝ)
    (electrodes : List Electrode) (time_bin_size : ℝ) (t b : ℕ) : Option ℝ :=
  electrodes.foldl
    (fun acc e =>
      nan_add acc
        (poisson_mark_log_likelihood
          (estimate_log_joint_mark_intensity n_time n_marks e.multiunit
            (fun _ => some (place_bin_centers b)) e.joint_model e.mean_rate
            (fun _ =>
              estimate_occupancy occupancy_model (fun b' => some (place_bin_centers b')) b)
            t)
          (estimate_ground_process_intensity e.marginal_model e.mean_rate
            (fun b' => some (place_bin_centers b'))
            (estimate_occupancy occupancy_model (fun b' => some (place_bin_centers b')))
            b)
          time_bin_size))
    (some 0)

/-- `estimate_no_replay_log_likelihood(multiunits, position, occupancy_model,
joint_models, marginal_models, mean_rates, time_bin_size)` at `t`: occupancy,
ground process intensity and log joint mark intensity are all evaluated at the
observed position, and the per-electrode Poisson terms are accumulated. -/
noncomputable def estimate_no_replay_log_likelihood (n_time n_marks : ℕ)
    (position : ℕ → Option ℝ) (occupancy_model : ℝ → ℝ)
    (electrodes : List Electrode) (time_bin_size : ℝ) (t : ℕ) : Option ℝ :=
  electrodes.foldl
    (fun acc e =>
      nan_add acc
        (poisson_mark_log_likelihood
          (estimate_log_joint_mark_intensity n_time n_marks e.multiunit position
            e.joint_model e.mean_rate
            (estimate_occupancy occupancy_model position) t)
          (estimate_ground_process_intensity e.marginal_model e.mean_rate position
            (estimate_occupancy occupancy_model position) t)
          time_bin_size))
    (some 0)

/-- `multiunit_likelihood(multiunit, position, place_bin_centers, ...)`: a
`(n_time, 2, n_place_bins)` array of zeros whose state-1 slice is
`exp(estimate_replay_log_likelihood)` and whose state-0 slice is
`exp(estimate_no_replay_log_likelihood)` broadcast over the bin axis. -/
noncomputable def multiunit_likelihood (n_time n_marks : ℕ) (position : ℕ → Option ℝ)
    (place_bin_centers : ℕ → ℝ) (occupancy_model : ℝ → ℝ)
    (electrodes : List Electrode) (time_bin_size : ℝ) (t s b : ℕ) : Option ℝ :=
  if s = 1 then
    (estimate_replay_log_likelihood n_time n_marks place_bin_centers occupancy_model
      electrodes time_bin_size t b).map Real.exp
  else if s = 0 then
    (estimate_no_replay_log_likelihood n_time n_marks position occupancy_model
      electrodes time_bin_size t).map Real.exp
  else some 0

/-! ## decoders.py -/

/-- The configuration attributes of `ReplayDetector` that the claims touch.
`place_bin_size` and `n_place_bins` are optional (`None`-able) arguments. -/
structure ReplayDetector where
  speed_threshold : ℝ
  place_bin_size : Option ℝ
  n_place_bins : Option ℕ

/-- `ReplayDetector.__init__`: stores the arguments unchanged and, when both
`n_place_bins` and `place_bin_size` are set, emits a warning (second component)
instead of failing. -/
def ReplayDetector.init (speed_threshold : ℝ) (place_bin_size : Option ℝ)
    (n_place_bins : Option ℕ) : ReplayDetector × Bool :=
  ({ speed_threshold := speed_threshold, place_bin_size := place_bin_size,
     n_place_bins := n_place_bins },
   n_place_bins.isSome && place_bin_size.isSome)

/-- The grid construction in `ReplayDetector.fit`:
`get_grid(position, bin_size=self.place_bin_size)`. `get_grid` itself lives in
core.py (not part of the analyzed sources) and is abstract here; `fit` passes
it only the positions and `place_bin_size`. -/
def fit_grid {γ : Type} (get_grid : (ℕ → Option ℝ) → Option ℝ → γ)
    (self : ReplayDetector) (position : ℕ → Option ℝ) : γ :=
  get_grid position self.place_bin_size

/-- The `is_track_interior` handling in `ReplayDetector.fit`: the attribute
`is_track_interior_` (`prev` being its value before the call, `none` for a
fresh detector) is assigned the all-ones mask only when the argument is
`None`; a supplied mask is never stored. -/
def fit_is_track_interior (prev : Option (ℕ → Bool))
    (is_track_interior : Option (ℕ → Bool)) : Option (ℕ → Bool) :=
  match is_track_interior with
  | none => some (fun _ => true)
  | some _ => prev

/-- The `is_training` mask `ReplayDetector.fit` passes to `empirical_movement`
when `movement_state_transition_type == 'empirical'`: `speed > 4`, with the
threshold hardcoded to `4` (the detector `self` is in scope but its
`speed_threshold` is not consulted). -/
def fit_empirical_is_training (self : ReplayDetector) (speed : ℕ → ℝ) (t : ℕ) : Prop :=
  speed t > 4

/-- The `'random_walk'` branch of `ReplayDetector.fit`: `random_walk` (from
movement_state_transition.py, abstract here) is called on the attribute
`self.is_track_interior_`; an unset attribute raises `AttributeError`. -/
def fit_random_walk_transition {τ : Type} (random_walk : (ℕ → Bool) → τ)
    (is_track_interior_attr : Option (ℕ → Bool)) : Except String τ :=
  match is_track_interior_attr with
  | some mask => Except.ok (random_walk mask)
  | none => Except.error "AttributeError: is_track_interior_"

/-- The four keys of the `likelihoods` dict in `ReplayDetector.predict`, in
insertion order. -/
inductive Modality where
  | speed
  | lfp_power
  | spikes
  | multiunit
deriving DecidableEq

/-- Modelled from the spec: `replace_NaN` (core.py, not among the analyzed
sources) substitutes the neutral likelihood 1 for NaN entries of a modality's
likelihood array. -/
def replace_NaN (x : Option ℝ) : ℝ := x.getD 1

/-- One iteration of the fusion loop in `ReplayDetector.predict`: if the
modality is selected, multiply the running likelihood elementwise (with
broadcasting) by `replace_NaN` of its array, and for the position-resolved
modalities (`spikes`, `multiunit`) set every non-interior bin to 0 —
reading `self.is_track_interior_`, whose absence raises `AttributeError`. -/
def apply_modality (use zero_non_interior : Bool)
    (is_track_interior_attr : Option (ℕ → Bool))
    (arr : ℕ → ℕ → ℕ → Option ℝ) (likelihood : ℕ → ℕ → ℕ → ℝ) :
    Except String (ℕ → ℕ → ℕ → ℝ) :=
  if use then
    let l2 : ℕ → ℕ → ℕ → ℝ := fun t s b => likelihood t s b * replace_NaN (arr t s b)
    if zero_non_interior then
      match is_track_interior_attr with
      | some interior => Except.ok (fun t s b => if interior b then l2 t s b else 0)
      | none => Except.error "AttributeError: is_track_interior_"
    else Except.ok l2
  else Except.ok likelihood

/-- The fused likelihood of `ReplayDetector.predict`: starting from
`np.ones((n_time, 2, 1))`, the four modalities are folded in dict order
(speed, lfp_power, spikes, multiunit); only the two position-resolved
modalities zero the non-interior bins. -/
def predict_likelihood (use : Modality → Bool)
    (is_track_interior_attr : Option (ℕ → Bool))
    (speed_arr lfp_arr spikes_arr multiunit_arr : ℕ → ℕ → ℕ → Option ℝ) :
    Except String (ℕ → ℕ → ℕ → ℝ) :=
  (apply_modality (use Modality.speed) false is_track_interior_attr speed_arr
      (fun _ _ _ => 1)).bind
    (fun l => (apply_modality (use Modality.lfp_power) false is_track_interior_attr
        lfp_arr l).bind
      (fun l => (apply_modality (use Modality.spikes) true is_track_interior_attr
          spikes_arr l).bind
        (fun l => apply_modality (use Modality.multiunit) true is_track_interior_attr
            multiunit_arr l)))

/-! ## Helper lemmas -/

/-- Folding NaN-free Poisson terms with `nan_add` is summation. -/
lemma foldl_nan_add_some {α : Type} (f : α → ℝ) :
    ∀ (es : List α) (x : ℝ),
      List.foldl (fun a e => nan_add a (some (f e))) (some x) es =
        some (x + (es.map f).sum)
  | [], x => by simp
  | e :: es, x => by
      simp only [List.foldl_cons, List.map_cons, List.sum_cons]
      have h := foldl_nan_add_some f es (x + f e)
      calc List.foldl (fun a e => nan_add a (some (f e))) (nan_add (some x) (some (f e))) es
          = List.foldl (fun a e => nan_add a (some (f e))) (some (x + f e)) es := rfl
        _ = some (x + f e + (es.map f).sum) := h
        _ = some (x + (f e + (es.map f).sum)) := by rw [add_assoc]

/-! ## Claim theorems -/

/-- C1: `poisson_mark_log_likelihood` is exactly
`log(Δ) + log_joint_mark_intensity − ground_process_intensity·Δ` elementwise,
and both branch estimators sum these per-electrode terms across electrodes:
the replay branch at `(t, b)` and the no-replay branch at a time `t` with an
observed (non-NaN) position each equal `some` of the sum, over the electrode
list, of `log Δ + log_joint_mark_intensity − ground_process_intensity · Δ`. -/
theorem C1_poisson_terms_summed_across_electrodes :
    (∀ (l g Δ : ℝ), poisson_mark_log_likelihood l (some g) Δ =
        some (Real.log Δ + l - g * Δ)) ∧
    (∀ (n_time n_marks : ℕ) (centers : ℕ → ℝ) (om : ℝ → ℝ) (es : List Electrode)
        (Δ : ℝ) (t b : ℕ),
      estimate_replay_log_likelihood n_time n_marks centers om es Δ t b =
        some ((es.map (fun e =>
          Real.log Δ +
          estimate_log_joint_mark_intensity n_time n_marks e.multiunit
            (fun _ => some (centers b)) e.joint_model e.mean_rate
            (fun _ => estimate_occupancy om (fun b' => some (centers b')) b) t -
          Real.exp (Real.log e.mean_rate + e.marginal_model (centers b) -
            Real.log (Real.exp (om (centers b)))) * Δ)).sum)) ∧
    (∀ (n_time n_marks : ℕ) (position : ℕ → Option ℝ) (om : ℝ → ℝ)
        (es : List Electrode) (Δ : ℝ) (t : ℕ) (p : ℝ),
      position t = some p →
      estimate_no_replay_log_likelihood n_time n_marks position om es Δ t =
        some ((es.map (fun e =>
          Real.log Δ +
          estimate_log_joint_mark_intensity n_time n_marks e.multiunit position
            e.joint_model e.mean_rate (estimate_occupancy om position) t -
          Real.exp (Real.log e.mean_rate + e.marginal_model p -
            Real.log (Real.exp (om p))) * Δ)).sum)) := by
  refine ⟨fun l g Δ => rfl, ?_, ?_⟩
  · intro n_time n_marks centers om es Δ t b
    have h := foldl_nan_add_some (fun e : Electrode =>
      Real.log Δ +
      estimate_log_joint_mark_intensity n_time n_marks e.multiunit
        (fun _ => some (centers b)) e.joint_model e.mean_rate
        (fun _ => estimate_occupancy om (fun b' => some (centers b')) b) t -
      Real.exp (Real.log e.mean_rate + e.marginal_model (centers b) -
        Real.log (Real.exp (om (centers b)))) * Δ) es 0
    calc estimate_replay_log_likelihood n_time n_marks centers om es Δ t b
        = some (0 + (es.map _).sum) := h
      _ = _ := by rw [zero_add]
  · intro n_time n_marks position om es Δ t p hp
    have h := foldl_nan_add_some (fun e : Electrode =>
      Real.log Δ +
      estimate_log_joint_mark_intensity n_time n_marks e.multiunit position
        e.joint_model e.mean_rate (estimate_occupancy om position) t -
      Real.exp (Real.log e.mean_rate + e.marginal_model p -
        Real.log (Real.exp (om p))) * Δ) es 0
    calc estimate_no_replay_log_likelihood n_time n_marks position om es Δ t
        = List.foldl (fun a e => nan_add a (some (_ : ℝ))) (some 0) es := by
          simp only [estimate_no_replay_log_likelihood,
            estimate_ground_process_intensity, estimate_occupancy, hp,
            Option.map_some', poisson_mark_log_likelihood]
      _ = some (0 + (es.map _).sum) := h
      _ = _ := by rw [zero_add]

/-- C1 witness: the no-replay part of C1 applied to a concrete one-electrode
input at an observed position. -/
theorem C1_witness :
    ∃ r : ℝ, estimate_no_replay_log_likelihood 1 1 (fun _ => some (0:ℝ)) (fun _ => 0)
      [⟨fun _ _ => some 1, fun _ => 0, fun _ => 0, 1⟩] 1 0 = some r :=
  ⟨_, C1_poisson_terms_summed_across_electrodes.2.2 1 1 (fun _ => some (0:ℝ))
    (fun _ => 0) [⟨fun _ _ => some 1, fun _ => 0, fun _ => 0, 1⟩] 1 0 0 rfl⟩

/-- C2: the replay branch at place bin `b` is exactly the no-replay estimator
with the observed position replaced by the constant position `centers b` —
the same fitted joint density machinery is evaluated at every place-bin
center, giving an `n_place_bins`-valued likelihood per time — while the
no-replay branch (the state-0 slice of `multiunit_likelihood`) is the
estimator at the single observed position, independent of the bin axis. -/
theorem C2_replay_marginalizes_no_replay_observes :
    ∀ (n_time n_marks : ℕ) (position : ℕ → Option ℝ) (centers : ℕ → ℝ)
      (om : ℝ → ℝ) (es : List Electrode) (Δ : ℝ) (t b : ℕ),
    (estimate_replay_log_likelihood n_time n_marks centers om es Δ t b =
      estimate_no_replay_log_likelihood n_time n_marks (fun _ => some (centers b))
        om es Δ t) ∧
    (multiunit_likelihood n_time n_marks position centers om es Δ t 1 b =
      (estimate_replay_log_likelihood n_time n_marks centers om es Δ t b).map
        Real.exp) ∧
    (multiunit_likelihood n_time n_marks position centers om es Δ t 0 b =
      (estimate_no_replay_log_likelihood n_time n_marks position om es Δ t).map
        Real.exp) := by
  intro n_time n_marks position centers om es Δ t b
  exact ⟨rfl, rfl, rfl⟩

/-- C3: at a time `t` where an electrode's marks are all NaN or the position
is NaN, the log joint mark intensity of that electrode at `t` is 0, and its
Poisson term is exactly `log(time_bin_size) − ground_process_intensity ·
time_bin_size` — the no-spike penalty — whatever the other electrodes and
times hold. -/
theorem C3_all_nan_gives_no_spike_penalty
    (n_time n_marks : ℕ) (multiunit : ℕ → ℕ → Option ℝ) (position : ℕ → Option ℝ)
    (joint_model : List (Option ℝ) → ℝ) (mean_rate : ℝ) (occupancy : ℕ → Option ℝ)
    (gpi : Option ℝ) (time_bin_size : ℝ) (t : ℕ)
    (h : (∀ j < n_marks, multiunit t j = none) ∨ position t = none) :
    estimate_log_joint_mark_intensity n_time n_marks multiunit position
      joint_model mean_rate occupancy t = 0 ∧
    poisson_mark_log_likelihood
      (estimate_log_joint_mark_intensity n_time n_marks multiunit position
        joint_model mean_rate occupancy t) gpi time_bin_size =
      gpi.map (fun g => Real.log time_bin_size - g * time_bin_size) := by
  have hspike : is_spike n_marks multiunit position t = false := by
    rcases h with hmarks | hpos
    · simp only [is_spike, Bool.and_eq_false_iff]
      left
      rw [List.any_eq_false]
      intro j hj
      rw [hmarks j (List.mem_range.mp hj)]
      simp
    · simp [is_spike, hpos]
  have hzero : estimate_log_joint_mark_intensity n_time n_marks multiunit position
      joint_model mean_rate occupancy t = 0 := by
    simp [estimate_log_joint_mark_intensity, hspike]
  refine ⟨hzero, ?_⟩
  rw [hzero]
  cases gpi with
  | none => rfl
  | some g =>
      simp only [poisson_mark_log_likelihood, Option.map_some']
      norm_num

/-- C3 witness: a single electrode whose multiunit input is entirely NaN
contributes only the no-spike penalty. -/
theorem C3_witness :
    estimate_log_joint_mark_intensity 1 1 (fun _ _ => none) (fun _ => some (0:ℝ))
      (fun _ => 0) 1 (fun _ => some 1) 0 = 0 ∧
    poisson_mark_log_likelihood
      (estimate_log_joint_mark_intensity 1 1 (fun _ _ => none) (fun _ => some (0:ℝ))
        (fun _ => 0) 1 (fun _ => some 1) 0) (some 2) 1 =
      (some 2).map (fun g => Real.log 1 - g * 1) :=
  C3_all_nan_gives_no_spike_penalty 1 1 (fun _ _ => none) (fun _ => some (0:ℝ))
    (fun _ => 0) 1 (fun _ => some 1) (some 2) 1 0
    (Or.inl (fun j _ => rfl))

/-- C10: the state-0 (no-replay) slice of `multiunit_likelihood` is constant
across position bins at each time: the `(n_time, 1)` no-replay log likelihood
is broadcast identically to every bin. -/
theorem C10_no_replay_slice_constant_across_bins :
    ∀ (n_time n_marks : ℕ) (position : ℕ → Option ℝ) (centers : ℕ → ℝ)
      (om : ℝ → ℝ) (es : List Electrode) (Δ : ℝ) (t b b' : ℕ),
    multiunit_likelihood n_time n_marks position centers om es Δ t 0 b =
      multiunit_likelihood n_time n_marks position centers om es Δ t 0 b' := by
  intro n_time n_marks position centers om es Δ t b b'
  rfl

/-- C5: a time step at which any channel of `ripple_band_power` is NaN gets
the neutral likelihood 1 for every state, and the likelihood at a time step
depends only on that time step's power row, so a NaN row leaves every other
time step's value unchanged. -/
theorem C5_lfp_nan_row_neutral_and_local
    (n_signals : ℕ) (power power' : ℕ → ℕ → Option ℝ)
    (replay_model no_replay_model : (ℕ → EReal) → ℝ) (t s : ℕ) :
    ((∃ c < n_signals, power t c = none) →
      lfp_likelihood n_signals power replay_model no_replay_model t s = 1) ∧
    ((∀ c, power t c = power' t c) →
      lfp_likelihood n_signals power replay_model no_replay_model t s =
        lfp_likelihood n_signals power' replay_model no_replay_model t s) := by
  constructor
  · rintro ⟨c, hc, hnone⟩
    have hnn : lfp_not_nan n_signals power t = false := by
      rw [Bool.eq_false_iff]
      intro hall
      rw [lfp_not_nan, List.all_eq_true] at hall
      have := hall c (List.mem_range.mpr hc)
      rw [hnone] at this
      simp at this
    simp [lfp_likelihood, hnn]
  · intro hrow
    have h1 : lfp_not_nan n_signals power t = lfp_not_nan n_signals power' t := by
      simp only [lfp_not_nan]
      congr 1
      funext c
      rw [hrow c]
    have h2 : (fun c => lfp_log_power power t c) =
        (fun c => lfp_log_power power' t c) := by
      funext c
      simp only [lfp_log_power]
      rw [hrow c]
    simp only [lfp_likelihood, h1, h2]

/-- C5 witness: a one-channel input that is NaN at time 0 gets likelihood 1. -/
theorem C5_witness :
    lfp_likelihood 1 (fun _ _ => none) (fun _ => 0) (fun _ => 0) 0 0 = 1 :=
  (C5_lfp_nan_row_neutral_and_local 1 (fun _ _ => none) (fun _ _ => none)
    (fun _ => 0) (fun _ => 0) 0 0).1 ⟨0, Nat.zero_lt_one, rfl⟩

/-- C7 counterexample: in `lfp_likelihood` the logarithm of the raw ripple
band power carries no additive epsilon guard, so a zero-valued power yields a
`-∞` log, contradicting the claim that every such logarithm is guarded. -/
theorem C7_counterexample :
    lfp_log_power (fun _ _ => some 0) 0 0 = ⊥ := by
  simp [lfp_log_power, nplog]

/-- C7 amended: only the LFP fitting path guards its logarithms — for any
nonnegative power, `log(power + np.spacing(1))` is finite — while
`lfp_likelihood` at predict time takes the unguarded `log(ripple_band_power)`,
which is `-∞` at a zero power; the multiunit estimators take `log(occupancy)`
with no guard, occupancy being positive in exact arithmetic (the exponential
of a log density). -/
theorem C7_amended_only_fit_path_guarded :
    (∀ x : ℝ, 0 ≤ x → fit_lfp_log_power x ≠ ⊥) ∧
    (lfp_log_power (fun _ _ => some 0) 0 0 = ⊥) ∧
    (∀ (om : ℝ → ℝ) (position : ℕ → Option ℝ) (t : ℕ) (o : ℝ),
      estimate_occupancy om position t = some o → 0 < o) := by
  refine ⟨?_, by simp [lfp_log_power, nplog], ?_⟩
  · intro x hx
    have hpos : 0 < x + npSpacing1 := by
      have : (0:ℝ) < npSpacing1 := by
        rw [npSpacing1]
        positivity
      linarith
    rw [fit_lfp_log_power, nplog, if_neg (not_le.mpr hpos)]
    exact EReal.coe_ne_bot _
  · intro om position t o ho
    rw [estimate_occupancy] at ho
    cases hp : position t with
    | none => rw [hp] at ho; simp at ho
    | some p =>
        rw [hp, Option.map_some'] at ho
        have : Real.exp (om p) = o := by
          injection ho
        rw [← this]
        exact Real.exp_pos _

/-- C7 amended witness: the fit-path guard at power 0, and the occupancy
positivity at a concrete observed position. -/
theorem C7_amended_witness :
    fit_lfp_log_power 0 ≠ ⊥ ∧ 0 < Real.exp ((fun _ : ℝ => (0:ℝ)) 0) :=
  ⟨C7_amended_only_fit_path_guarded.1 0 le_rfl,
   C7_amended_only_fit_path_guarded.2.2 (fun _ => 0) (fun _ => some (0:ℝ)) 0
     (Real.exp ((fun _ : ℝ => (0:ℝ)) 0)) rfl⟩

/-- C6: the `is_training` mask that `fit` hands to `empirical_movement` uses
the hardcoded cutoff 4, not the configured `speed_threshold`: on a detector
constructed with `speed_threshold = 10`, a time step with speed 5 is
classified as moving even though its speed does not exceed the detector's
threshold. -/
theorem C6_empirical_mask_ignores_speed_threshold :
    fit_empirical_is_training (ReplayDetector.init 10 (some 2) none).1
      (fun _ => 5) 0 ∧
    ¬ ((5:ℝ) > (ReplayDetector.init 10 (some 2) none).1.speed_threshold) := by
  constructor
  · show (5:ℝ) > 4
    norm_num
  · show ¬ ((5:ℝ) > 10)
    norm_num

/-- C8: constructing a detector with both `place_bin_size` and `n_place_bins`
set succeeds and emits the warning, and the grid that `fit` builds is a
function of `place_bin_size` alone — two detectors differing only in
`n_place_bins` produce identical grids for every grid builder and every
position series. -/
theorem C8_place_bin_size_takes_precedence :
    (∀ (θ b : ℝ) (n : ℕ),
      (ReplayDetector.init θ (some b) (some n)).2 = true) ∧
    (∀ (γ : Type) (get_grid : (ℕ → Option ℝ) → Option ℝ → γ) (θ b : ℝ)
      (n1 n2 : Option ℕ) (position : ℕ → Option ℝ),
      fit_grid get_grid (ReplayDetector.init θ (some b) n1).1 position =
        fit_grid get_grid (ReplayDetector.init θ (some b) n2).1 position) := by
  exact ⟨fun θ b n => rfl, fun γ get_grid θ b n1 n2 position => rfl⟩

/-- `Except.bind` on a success just applies the continuation. -/
lemma except_bind_ok {ε α β : Type} (x : α) (f : α → Except ε β) :
    Except.bind (Except.ok x) f = f x := rfl

/-- A fusion step with a present `is_track_interior_` attribute never errors. -/
lemma apply_modality_some_ok (u z : Bool) (interior : ℕ → Bool)
    (arr : ℕ → ℕ → ℕ → Option ℝ) (l : ℕ → ℕ → ℕ → ℝ) :
    ∃ l', apply_modality u z (some interior) arr l = Except.ok l' := by
  cases u <;> cases z <;> exact ⟨_, rfl⟩

/-- A fusion step that does not zero non-interior bins never errors. -/
lemma apply_modality_no_zero_ok (u : Bool) (attr : Option (ℕ → Bool))
    (arr : ℕ → ℕ → ℕ → Option ℝ) (l : ℕ → ℕ → ℕ → ℝ) :
    ∃ l', apply_modality u false attr arr l = Except.ok l' := by
  cases u <;> exact ⟨_, rfl⟩

/-- A selected position-resolved fusion step zeroes every non-interior bin. -/
lemma apply_modality_zeroes (interior : ℕ → Bool) (arr : ℕ → ℕ → ℕ → Option ℝ)
    (l l' : ℕ → ℕ → ℕ → ℝ)
    (h : apply_modality true true (some interior) arr l = Except.ok l')
    (t s b : ℕ) (hb : interior b = false) : l' t s b = 0 := by
  simp only [apply_modality, if_true] at h
  rw [Except.ok.injEq] at h
  rw [← h]
  show (if interior b = true then l t s b * replace_NaN (arr t s b) else 0) = 0
  rw [hb]
  simp

/-- Every fusion step preserves zeros already forced at non-interior bins. -/
lemma apply_modality_preserves_zeroes (u z : Bool) (interior : ℕ → Bool)
    (arr : ℕ → ℕ → ℕ → Option ℝ) (l l' : ℕ → ℕ → ℕ → ℝ)
    (hz : ∀ t s b, interior b = false → l t s b = 0)
    (h : apply_modality u z (some interior) arr l = Except.ok l')
    (t s b : ℕ) (hb : interior b = false) : l' t s b = 0 := by
  cases u with
  | false =>
      simp only [apply_modality, if_false, Bool.false_eq_true, Except.ok.injEq] at h
      rw [← h]
      exact hz t s b hb
  | true =>
      cases z with
      | false =>
          simp only [apply_modality, if_true, Bool.false_eq_true, if_false,
            Except.ok.injEq] at h
          rw [← h]
          show l t s b * replace_NaN (arr t s b) = 0
          rw [hz t s b hb, zero_mul]
      | true =>
          exact apply_modality_zeroes interior arr l l' h t s b hb

/-- C4: predict's fusion starts from the all-ones array and multiplies the
selected modalities in; with no modality selected the fused likelihood is
identically 1, and whenever a position-resolved modality (spikes or
multiunit) is selected, every fused entry at a non-interior bin is 0 for both
states and all times. -/
theorem C4_fusion_neutral_ones_and_interior_zeroing :
    (∀ (use : Modality → Bool) (interior : ℕ → Bool)
      (sa la ka ma : ℕ → ℕ → ℕ → Option ℝ),
      (∀ m, use m = false) →
      predict_likelihood use (some interior) sa la ka ma =
        Except.ok (fun _ _ _ => (1:ℝ))) ∧
    (∀ (use : Modality → Bool) (interior : ℕ → Bool)
      (sa la ka ma : ℕ → ℕ → ℕ → Option ℝ) (l : ℕ → ℕ → ℕ → ℝ) (t s b : ℕ),
      (use Modality.spikes = true ∨ use Modality.multiunit = true) →
      predict_likelihood use (some interior) sa la ka ma = Except.ok l →
      interior b = false → l t s b = 0) := by
  constructor
  · intro use interior sa la ka ma hnone
    rw [predict_likelihood, hnone Modality.speed, hnone Modality.lfp_power,
      hnone Modality.spikes, hnone Modality.multiunit]
    rfl
  · intro use interior sa la ka ma l t s b hsel hpred hb
    obtain ⟨l1, h1⟩ := apply_modality_no_zero_ok (use Modality.speed)
      (some interior) sa (fun _ _ _ => 1)
    obtain ⟨l2, h2⟩ := apply_modality_no_zero_ok (use Modality.lfp_power)
      (some interior) la l1
    rw [predict_likelihood, h1, except_bind_ok, h2, except_bind_ok] at hpred
    rcases hsel with hs | hm
    · rw [hs] at hpred
      obtain ⟨l3, h3⟩ := apply_modality_some_ok true true interior ka l2
      rw [h3, except_bind_ok] at hpred
      exact apply_modality_preserves_zeroes (use Modality.multiunit) true interior
        ma l3 l (apply_modality_zeroes interior ka l2 l3 h3) hpred t s b hb
    · cases hs2 : use Modality.spikes with
      | true =>
          rw [hs2] at hpred
          obtain ⟨l3, h3⟩ := apply_modality_some_ok true true interior ka l2
          rw [h3, except_bind_ok] at hpred
          exact apply_modality_preserves_zeroes (use Modality.multiunit) true
            interior ma l3 l (apply_modality_zeroes interior ka l2 l3 h3) hpred
            t s b hb
      | false =>
          rw [hs2] at hpred
          rw [show apply_modality false true (some interior) ka l2 =
            Except.ok l2 from rfl, except_bind_ok, hm] at hpred
          exact apply_modality_zeroes interior ma l2 l hpred t s b hb

/-- C4 witness: with only spikes selected and no interior bin, the fused
likelihood exists and is 0 at bin 0. -/
theorem C4_witness :
    ∃ l, predict_likelihood (fun m => decide (m = Modality.spikes))
        (some (fun _ => false)) (fun _ _ _ => some 1) (fun _ _ _ => some 1)
        (fun _ _ _ => some 1) (fun _ _ _ => some 1) = Except.ok l ∧
      l 0 0 0 = 0 :=
  ⟨fun _ _ _ => (0:ℝ), rfl,
    C4_fusion_neutral_ones_and_interior_zeroing.2
      (fun m => decide (m = Modality.spikes)) (fun _ => false)
      (fun _ _ _ => some 1) (fun _ _ _ => some 1) (fun _ _ _ => some 1)
      (fun _ _ _ => some 1) (fun _ _ _ => (0:ℝ)) 0 0 0 (Or.inl rfl) rfl rfl⟩

/-- C9: `fit` leaves `is_track_interior_` unassigned whenever a mask is
supplied (and the supplied mask has no effect at all), so on a fresh detector
every later `predict` selecting spikes or multiunit, and every `fit` taking
the random-walk branch, hits a missing `is_track_interior_` attribute
(AttributeError). -/
theorem C9_supplied_interior_mask_ignored_then_attribute_error :
    (∀ m : ℕ → Bool, fit_is_track_interior none (some m) = none) ∧
    (∀ (prev : Option (ℕ → Bool)) (m m' : ℕ → Bool),
      fit_is_track_interior prev (some m) = fit_is_track_interior prev (some m')) ∧
    (∀ (use : Modality → Bool) (sa la ka ma : ℕ → ℕ → ℕ → Option ℝ),
      (use Modality.spikes = true ∨ use Modality.multiunit = true) →
      ∃ msg, predict_likelihood use none sa la ka ma = Except.error msg) ∧
    (∀ (τ : Type) (random_walk : (ℕ → Bool) → τ),
      fit_random_walk_transition random_walk none =
        Except.error "AttributeError: is_track_interior_") := by
  refine ⟨fun m => rfl, fun prev m m' => rfl, ?_, fun τ random_walk => rfl⟩
  intro use sa la ka ma hsel
  obtain ⟨l1, h1⟩ := apply_modality_no_zero_ok (use Modality.speed) none sa
    (fun _ _ _ => 1)
  obtain ⟨l2, h2⟩ := apply_modality_no_zero_ok (use Modality.lfp_power) none la l1
  rw [predict_likelihood, h1, except_bind_ok, h2, except_bind_ok]
  rcases hsel with hs | hm
  · rw [hs]
    exact ⟨_, rfl⟩
  · cases hs2 : use Modality.spikes with
    | true =>
        exact ⟨_, rfl⟩
    | false =>
        rw [show apply_modality false true none ka l2 = Except.ok l2 from rfl,
          except_bind_ok, hm]
        exact ⟨_, rfl⟩

/-- C9 witness: a predict with only multiunit selected on a fresh fitted
detector that was given an interior mask errors out. -/
theorem C9_witness :
    ∃ msg, predict_likelihood (fun m => decide (m = Modality.multiunit)) none
      (fun _ _ _ => some 1) (fun _ _ _ => some 1) (fun _ _ _ => some 1)
      (fun _ _ _ => some 1) = Except.error msg :=
  C9_supplied_interior_mask_ignored_then_attribute_error.2.2.1
    (fun m => decide (m = Modality.multiunit)) (fun _ _ _ => some 1)
    (fun _ _ _ => some 1) (fun _ _ _ => some 1) (fun _ _ _ => some 1)
    (Or.inr rfl)
